import Mathlib

/-!
Verification of the extraction/store core of the e-commerce price monitor
(`src/scraper.py`, `src/analyzer.py`).

The Python code is shallowly embedded: pure fragments become Lean
functions, the regex `[\d,]+\.?\d*` with `re.findall(...)[0]` becomes an
explicit leftmost-greedy scanner over `List Char`, Python `float` values
are modelled as exact rationals (`ℚ`), page queries
(`soup.select_one(sel).get_text(strip=True)`) are modelled as a finite
map from selector strings to the (already trimmed) text of the first
matching element, and the pandas dataframe pipeline becomes explicit
list processing.
-/

namespace PriceMonitor

/-! ### Price Extractor (`PriceScraper.extract_price`) -/

/-- Character class `[\d,]` of the price regex. -/
def isDigitOrComma (c : Char) : Bool := c.isDigit || c == ','

/-- The `\.?\d*` part of the price regex, applied to the remainder of
the text after the `[\d,]+` run: when the remainder starts with a dot,
the match continues with that dot and the maximal digit run. -/
def dotTail (l : List Char) : List Char :=
  match l with
  | '.' :: cs2 => '.' :: cs2.takeWhile Char.isDigit
  | _ => []

/-- Leftmost-greedy first match of the regex `[\d,]+\.?\d*`
(`re.findall(price_pattern, text)` followed by taking `matches[0]`):
scan for the first character in `[\d,]`; the match is then the maximal
run of `[\d,]`, followed, when a `.` comes next, by that dot and the
maximal run of digits.  Since `\.?` and `\d*` may match empty, this
greedy scan is exactly the regex semantics. -/
def firstNumericMatch : List Char → Option (List Char)
  | [] => none
  | c :: cs =>
    if isDigitOrComma c then
      some ((c :: cs).takeWhile isDigitOrComma ++
        dotTail ((c :: cs).dropWhile isDigitOrComma))
    else firstNumericMatch cs

/-- Comma stripping: `price_str = matches[0].replace(',', '')`. -/
def stripCommas (l : List Char) : List Char := l.filter (fun c => c != ',')

/-- Numeric value of a digit string (most significant first). -/
def digitsVal (l : List Char) : Nat := l.foldl (fun n c => 10 * n + (c.toNat - 48)) 0

/-- Python `float(price_str)` on the strings reachable from the regex
match after comma-stripping (digits, an optional dot, digits — in any
combination): succeeds iff at least one digit is present, returning the
denoted decimal as an exact rational; `float('')`, `float('.')` and any
non-digit remainder raise `ValueError`, modelled as `none`. -/
def pyFloat (l : List Char) : Option ℚ :=
  let ip := l.takeWhile Char.isDigit
  match l.dropWhile Char.isDigit with
  | [] => if l.isEmpty then none else some (mkRat (digitsVal ip) 1)
  | '.' :: frac =>
      if frac.all Char.isDigit then
        if ip.isEmpty && frac.isEmpty then none
        else some (mkRat (digitsVal ip * 10 ^ frac.length + digitsVal frac) (10 ^ frac.length))
      else none
  | _ => none

/-- The extractor `PriceScraper.extract_price`: first regex match, strip commas, parse
as float; `none` when there is no match or parsing fails. -/
def extract_price (text : String) : Option ℚ :=
  match firstNumericMatch text.data with
  | none => none
  | some m => pyFloat (stripCommas m)

/-! ### Pages, selectors and the scrape loop (`PriceScraper.scrape_generic_product`) -/

/-- A parsed page, modelled as a finite map from CSS selector to the
trimmed text (`get_text(strip=True)`) of the first element the selector
matches; a selector absent from the map matches no element. -/
abbrev Page := List (String × String)

/-- Page query: `soup.select_one(selector)` followed by
`get_text(strip=True)`. -/
def selectOne (page : Page) (sel : String) : Option String :=
  (page.find? (fun e => e.1 == sel)).map (fun e => e.2)

/-- The built-in price selector list `common_selectors`, in source order. -/
def commonSelectors : List String :=
  [".price", ".a-price-whole", "[data-price]", ".product-price",
   "#priceblock_dealprice", "#priceblock_ourprice", ".price-current",
   "[itemprop=\"price\"]"]

/-- The scanned selector list: `common_selectors.insert(0, price_selector)`
when a caller-supplied selector is given; `if price_selector:` is false
both for `None` and for the empty string. -/
def selectorChain (price_selector : Option String) : List String :=
  match price_selector with
  | some s => if s = "" then commonSelectors else s :: commonSelectors
  | none => commonSelectors

/-- Python truthiness of the `price` variable (`if price:` /
`'success' if price else ...`): `None` and `0.0` are falsy, any other
float is truthy. -/
def truthy : Option ℚ → Bool
  | none => false
  | some q => q.num != 0

/-- The price-selector loop of `scrape_generic_product` (lines 71-77):
`price` and `price_text` are updated on every matched element, and the
loop `break`s only when the parsed price is truthy. -/
def priceLoop (page : Page) : List String → Option ℚ → Option String → Option ℚ × Option String
  | [], price, price_text => (price, price_text)
  | sel :: rest, price, price_text =>
    match selectOne page sel with
    | none => priceLoop page rest price price_text
    | some t =>
      let p := extract_price t
      if truthy p then (p, some t) else priceLoop page rest p (some t)

/-- Whether one selector would terminate the price loop: it matches an
element whose text parses to a truthy price. -/
def fires (page : Page) (sel : String) : Bool :=
  match selectOne page sel with
  | some t => truthy (extract_price t)
  | none => false

/-- The title selector list `title_selectors`, in source order. -/
def titleSelectors : List String :=
  ["h1", ".product-title", "#productTitle", "[itemprop=\"name\"]"]

/-- The title loop (lines 82-86): the text of the first matching
selector's element (the loop breaks on the first match, even when its
text is empty). -/
def titleLoop (page : Page) : List String → Option String
  | [] => none
  | sel :: rest =>
    match selectOne page sel with
    | some t => some t
    | none => titleLoop page rest

/-- Python `str.split('/')` on the character list. -/
def splitOnSlash : List Char → List (List Char)
  | [] => [[]]
  | c :: cs =>
    if c = '/' then [] :: splitOnSlash cs
    else
      match splitOnSlash cs with
      | [] => [[c]]
      | h :: t => (c :: h) :: t

/-- The title fallback `url.split('/')[-1][:50]` (line 89). -/
def fallbackTitle (url : String) : String :=
  String.mk (((splitOnSlash url.data).getLast?.getD []).take 50)

/-- The computed title: first matching title selector's text when
non-empty (`if not title:`), otherwise the URL-derived fallback. -/
def resolveTitle (page : Page) (url : String) : String :=
  match titleLoop page titleSelectors with
  | some t => if t = "" then fallbackTitle url else t
  | none => fallbackTitle url

/-- One scraped record (the dict returned by `scrape_generic_product`,
which is also a row of the persisted dataframe). -/
structure Observation where
  title : String
  url : String
  price : Option ℚ
  price_text : Option String
  timestamp : String
  status : String
deriving DecidableEq

/-- Result of `self.session.get(url, timeout=10)` plus
`raise_for_status()`: either a parsed page or a `requests.RequestException`
(timeout, network failure, or HTTP error status) with its message. -/
inductive FetchResult where
  | ok (page : Page)
  | error (msg : String)

/-- The builder `PriceScraper.scrape_generic_product`, with the network call made
explicit as a `FetchResult` argument and `datetime.now()` as the `now`
argument.  On a `RequestException` it returns the error record of lines
102-109; otherwise it runs the price loop over the selector chain and the
title resolution, and tags the record `success`/`price_not_found` by the
truthiness of the final `price`. -/
def scrape_generic_product (fetch : FetchResult) (url : String)
    (price_selector : Option String) (now : String) : Observation :=
  match fetch with
  | .error e =>
      { title := url, url := url, price := none, price_text := none,
        timestamp := now, status := "error: " ++ e }
  | .ok page =>
      let r := priceLoop page (selectorChain price_selector) none none
      { title := resolveTitle page url, url := url,
        price := r.1, price_text := r.2, timestamp := now,
        status := if truthy r.1 then "success" else "price_not_found" }

/-! ### Store (`PriceScraper.save_to_csv`) -/

/-- The dedup key of the dataset: `subset=['url', 'timestamp']`. -/
def obsKey (o : Observation) : String × String := (o.url, o.timestamp)

/-- Dedup step `DataFrame.drop_duplicates(subset=['url', 'timestamp'], keep='last')`:
a row is kept iff no later row carries the same key; relative order of
kept rows is preserved. -/
def dedupKeepLast : List Observation → List Observation
  | [] => []
  | o :: rest =>
    if rest.any (fun o2 => obsKey o2 == obsKey o) then dedupKeepLast rest
    else o :: dedupKeepLast rest

/-- The append `PriceScraper.save_to_csv`, with the file system made explicit:
`existing = none` models a missing data file (`os.path.exists` false),
`existing = some df` its parsed contents.  The new rows are concatenated
after the existing ones and the combination is deduplicated by
`(url, timestamp)` keeping the last row. -/
def save_to_csv (existing : Option (List Observation)) (newData : List Observation) :
    List Observation :=
  match existing with
  | some df => dedupKeepLast (df ++ newData)
  | none => dedupKeepLast newData

/-! ### Persistence (`to_csv` / `PriceAnalyzer.load_data`)

The CSV transport is modelled at the granularity of pandas' typed cells:
`to_csv` writes a float cell exactly (float repr round-trips), writes a
string cell verbatim, and writes an empty cell for missing values
(`NaN`/`None`) *and* for the empty string; `read_csv` reads an empty
cell back as missing.  Textual details (quoting, separator escaping) and
pandas' type re-inference of purely numeric-looking string columns are
delegated to pandas and not modelled. -/

/-- One CSV cell as read back by pandas: a string, a float, or empty
(`NaN`). -/
inductive Cell where
  | str (v : String)
  | num (v : ℚ)
  | empty
deriving DecidableEq

/-- A written string cell: pandas writes the empty string as an empty
cell, indistinguishable from a missing value. -/
def strCell (s : String) : Cell :=
  if s = "" then Cell.empty else Cell.str s

/-- A written optional-string cell (`price_text`). -/
def optStrCell : Option String → Cell
  | some s => strCell s
  | none => Cell.empty

/-- A written optional-float cell (`price`). -/
def optNumCell : Option ℚ → Cell
  | some q => Cell.num q
  | none => Cell.empty

/-- Serialization `DataFrame.to_csv(index=False)` of one Observation: one row of cells
in the dataframe's column order
`title, url, price, price_text, timestamp, status`. -/
def persistRow (o : Observation) : List Cell :=
  [strCell o.title, strCell o.url, optNumCell o.price, optStrCell o.price_text,
   strCell o.timestamp, strCell o.status]

/-- The spec operation `persist(dataset)`: the written tabular file
(header row implicit). -/
def persist (d : List Observation) : List (List Cell) := d.map persistRow

/-- Read one cell of a string column (`NaN` read back for an empty
cell is modelled as the empty string). -/
def cellStr : Cell → String
  | .str v => v
  | _ => ""

/-- Read the `price` cell: a float, or missing for an empty cell. -/
def cellNum : Cell → Option ℚ
  | .num q => some q
  | _ => none

/-- Read the `price_text` cell: a string, or missing for an empty cell. -/
def cellOptStr : Cell → Option String
  | .str v => some v
  | _ => none

/-- Reading one row back (`pd.read_csv`); a row of the wrong arity is
rejected. -/
def loadRow : List Cell → Option Observation
  | [t, u, p, pt, ts, st] =>
      some { title := cellStr t, url := cellStr u, price := cellNum p,
             price_text := cellOptStr pt, timestamp := cellStr ts, status := cellStr st }
  | _ => none

/-- The loader `PriceAnalyzer.load_data`: read the rows back and keep only records
with a price (`self.df = self.df[self.df['price'].notna()]`); the
`to_datetime` conversion keeps the timestamp's denoted value and is
modelled as the identity on the canonical `%Y-%m-%d %H:%M:%S` form. -/
def load_data (rows : List (List Cell)) : List Observation :=
  (rows.filterMap loadRow).filter (fun o => o.price.isSome)

/-! ### Lemmas about the Price Extractor -/

theorem dotTail_subset (l : List Char) : ∀ x ∈ dotTail l, x ∈ l := by
  unfold dotTail
  split
  · next cs2 =>
      intro x hx
      rcases List.mem_cons.mp hx with rfl | hx2
      · exact List.mem_cons_self _ _
      · exact List.mem_cons_of_mem _ ((List.takeWhile_sublist _).subset hx2)
  · intro x hx
    simp at hx

theorem firstNumericMatch_subset :
    ∀ {l m : List Char}, firstNumericMatch l = some m → ∀ c ∈ m, c ∈ l := by
  intro l
  induction l with
  | nil => intro m h; simp [firstNumericMatch] at h
  | cons c cs ih =>
      intro m h x hx
      rw [show firstNumericMatch (c :: cs) =
          (if isDigitOrComma c then
            some ((c :: cs).takeWhile isDigitOrComma ++
              dotTail ((c :: cs).dropWhile isDigitOrComma))
          else firstNumericMatch cs) from rfl] at h
      by_cases hc : isDigitOrComma c
      · rw [if_pos hc] at h
        injection h with h
        subst h
        rcases List.mem_append.mp hx with h1 | h2
        · exact (List.takeWhile_sublist _).subset h1
        · exact (List.dropWhile_sublist _).subset (dotTail_subset _ x h2)
      · rw [if_neg hc] at h
        exact List.mem_cons_of_mem _ (ih h x hx)

theorem takeWhile_isDigit_eq_nil {l : List Char} (h : ∀ c ∈ l, c.isDigit = false) :
    l.takeWhile Char.isDigit = [] := by
  cases l with
  | nil => rfl
  | cons c cs => simp [List.takeWhile_cons, h c (by simp)]

theorem dropWhile_isDigit_eq_self {l : List Char} (h : ∀ c ∈ l, c.isDigit = false) :
    l.dropWhile Char.isDigit = l := by
  cases l with
  | nil => rfl
  | cons c cs => simp [List.dropWhile_cons, h c (by simp)]

/-- Python `float()` fails on every digit-free candidate (such candidates are
all-comma runs, possibly followed by a lone dot, so after comma
stripping the string is `""` or `"."`). -/
theorem pyFloat_no_digit {l : List Char} (h : ∀ c ∈ l, c.isDigit = false) :
    pyFloat l = none := by
  have ht := takeWhile_isDigit_eq_nil h
  have hd := dropWhile_isDigit_eq_self h
  unfold pyFloat
  rw [ht, hd]
  cases l with
  | nil => rfl
  | cons c cs =>
      by_cases hc : c = '.'
      · subst hc
        show (if cs.all Char.isDigit then
            if (List.isEmpty [] && cs.isEmpty) then none
            else some (mkRat (digitsVal [] * 10 ^ cs.length + digitsVal cs) (10 ^ cs.length))
          else none) = none
        cases cs with
        | nil => rfl
        | cons c2 cs2 =>
            have : c2.isDigit = false := h c2 (by simp)
            simp [List.all_cons, this]
      · -- head is neither a digit (by `h`) nor a dot: the match falls through
        split
        · next heq => exact absurd heq.symm (by simp)
        · next frac heq =>
            injection heq with h1 h2
            exact absurd h1 hc
        · rfl

theorem fires_eq_false_of_selectOne_none {page : Page} {sel : String}
    (h : selectOne page sel = none) : fires page sel = false := by
  simp [fires, h]

theorem fires_eq_of_selectOne_some {page : Page} {sel : String} {t : String}
    (h : selectOne page sel = some t) : fires page sel = truthy (extract_price t) := by
  simp [fires, h]

/-- The final `price` of the selector loop is truthy iff some selector
fires, or no selector matched at all and the carried-in price was
already truthy. -/
theorem truthy_priceLoop (page : Page) (sels : List String) (p : Option ℚ) (t : Option String) :
    truthy (priceLoop page sels p t).1 =
      (sels.any (fires page) ||
        (sels.all (fun s => (selectOne page s).isNone) && truthy p)) := by
  induction sels generalizing p t with
  | nil => simp [priceLoop]
  | cons sel rest ih =>
    cases hs : selectOne page sel with
    | none =>
        simp [priceLoop, hs, fires_eq_false_of_selectOne_none hs, ih]
    | some u =>
        have hf := fires_eq_of_selectOne_some (t := u) hs
        cases ht : truthy (extract_price u) with
        | true => simp [priceLoop, hs, ht, hf]
        | false => simp [priceLoop, hs, ht, hf, ih]

/-! ### Lemmas about the Store -/

theorem dedupKeepLast_sublist (l : List Observation) : (dedupKeepLast l).Sublist l := by
  induction l with
  | nil => exact List.Sublist.refl _
  | cons o rest ih =>
      simp only [dedupKeepLast]
      split
      · exact ih.trans (List.sublist_cons_self _ _)
      · exact List.cons_sublist_cons.mpr ih

theorem dedupKeepLast_pairwise (l : List Observation) :
    (dedupKeepLast l).Pairwise (fun a b => obsKey a ≠ obsKey b) := by
  induction l with
  | nil => exact List.Pairwise.nil
  | cons o rest ih =>
      simp only [dedupKeepLast]
      split
      · exact ih
      · next hany =>
          have hf : rest.any (fun o2 => obsKey o2 == obsKey o) = false := by
            revert hany; cases rest.any (fun o2 => obsKey o2 == obsKey o) <;> simp
          rw [List.pairwise_cons]
          refine ⟨?_, ih⟩
          intro b hb
          have hb' : b ∈ rest := (dedupKeepLast_sublist rest).subset hb
          have := List.any_eq_false.mp hf b hb'
          intro hko
          exact this (beq_iff_eq.mpr hko.symm)

/-- The deduplicated list resolves every key to the *last* occurrence of
that key in the original list (searching the reversed list from the
front finds the last occurrence first). -/
theorem dedupKeepLast_find?_reverse (l : List Observation) (k : String × String) :
    (dedupKeepLast l).find? (fun x => obsKey x == k) =
      l.reverse.find? (fun x => obsKey x == k) := by
  induction l with
  | nil => rfl
  | cons o rest ih =>
      have hrev : (o :: rest).reverse = rest.reverse ++ [o] := by simp
      rw [hrev, List.find?_append]
      simp only [dedupKeepLast]
      split
      · next hany =>
          rw [ih]
          by_cases hpo : (obsKey o == k) = true
          · have hk : obsKey o = k := beq_iff_eq.mp hpo
            obtain ⟨o2, ho2, hb⟩ := List.any_eq_true.mp hany
            have ho2k : (obsKey o2 == k) = true := by
              rw [beq_iff_eq] at hb ⊢; rw [hb, hk]
            have hsome : (List.find? (fun x => obsKey x == k) rest.reverse).isSome = true := by
              rw [List.find?_isSome]
              exact ⟨o2, by simp [ho2], ho2k⟩
            obtain ⟨y, hy⟩ := Option.isSome_iff_exists.mp hsome
            rw [hy, Option.or_some]
          · have h1 : List.find? (fun x => obsKey x == k) [o] = none := by
              simp only [List.find?]
              rw [show (obsKey o == k) = false by revert hpo; cases obsKey o == k <;> simp]
            rw [h1, Option.or_none]
      · next hany =>
          have hf : rest.any (fun o2 => obsKey o2 == obsKey o) = false := by
            revert hany; cases rest.any (fun o2 => obsKey o2 == obsKey o) <;> simp
          by_cases hpo : (obsKey o == k) = true
          · rw [@List.find?_cons_of_pos _ (fun x => obsKey x == k) o (dedupKeepLast rest) hpo]
            have hnone : List.find? (fun x => obsKey x == k) rest.reverse = none := by
              rw [List.find?_eq_none]
              intro x hx hxk
              have hxr : x ∈ rest := by simpa using hx
              apply List.any_eq_false.mp hf x hxr
              rw [beq_iff_eq] at hxk ⊢
              rw [hxk, ← beq_iff_eq.mp hpo]
            have h1 : List.find? (fun x => obsKey x == k) [o] = some o :=
              @List.find?_cons_of_pos _ (fun x => obsKey x == k) o [] hpo
            rw [hnone, h1]
            rfl
          · rw [@List.find?_cons_of_neg _ (fun x => obsKey x == k) o (dedupKeepLast rest) hpo,
              ih]
            have h1 : List.find? (fun x => obsKey x == k) [o] = none := by
              simp only [List.find?]
              rw [show (obsKey o == k) = false by revert hpo; cases obsKey o == k <;> simp]
            rw [h1, Option.or_none]

theorem dedupKeepLast_eq_self {l : List Observation}
    (h : l.Pairwise (fun a b => obsKey a ≠ obsKey b)) : dedupKeepLast l = l := by
  induction l with
  | nil => rfl
  | cons o rest ih =>
      rw [List.pairwise_cons] at h
      have hany : rest.any (fun o2 => obsKey o2 == obsKey o) = false := by
        rw [List.any_eq_false]
        intro x hx hbx
        exact (h.1 x hx) (beq_iff_eq.mp hbx).symm
      unfold dedupKeepLast
      rw [hany]
      simp [ih h.2]

/-- Merging a single new row into a key-distinct dataset: the size stays
the same iff the key is already present, and grows by one otherwise. -/
theorem dedupKeepLast_length_append_single (l : List Observation) (o : Observation)
    (h : l.Pairwise (fun a b => obsKey a ≠ obsKey b)) :
    (dedupKeepLast (l ++ [o])).length =
      if obsKey o ∈ l.map obsKey then l.length else l.length + 1 := by
  induction l with
  | nil => simp [dedupKeepLast]
  | cons e l ih =>
      rw [List.pairwise_cons] at h
      have he := h.1
      have hany : l.any (fun o2 => obsKey o2 == obsKey e) = false := by
        rw [List.any_eq_false]
        intro x hx hbx
        exact (he x hx) (beq_iff_eq.mp hbx).symm
      show (dedupKeepLast (e :: (l ++ [o]))).length = _
      unfold dedupKeepLast
      rw [List.any_append, hany]
      simp only [Bool.false_or, List.any_cons, List.any_nil, Bool.or_false]
      by_cases hk : obsKey o = obsKey e
      · rw [if_pos (beq_iff_eq.mpr hk)]
        rw [ih h.2]
        have hnotin : obsKey o ∉ l.map obsKey := by
          rw [hk]
          intro hc
          obtain ⟨x, hx, hxe⟩ := List.mem_map.mp hc
          exact (he x hx) hxe.symm
        rw [if_neg hnotin, if_pos (by simp [hk])]
        simp
      · rw [if_neg (by simp [hk])]
        rw [List.length_cons, ih h.2]
        by_cases hm : obsKey o ∈ l.map obsKey
        · rw [if_pos hm, if_pos (by simp [hm])]
          simp
        · rw [if_neg hm, if_neg (by simp [hk, hm])]
          simp

/-! ### Lemmas about persistence -/

theorem cellStr_strCell (s : String) : cellStr (strCell s) = s := by
  by_cases h : s = "" <;> simp [strCell, cellStr, h]

theorem cellNum_optNumCell (p : Option ℚ) : cellNum (optNumCell p) = p := by
  cases p <;> rfl

theorem cellOptStr_optStrCell {pt : Option String} (h : pt ≠ some "") :
    cellOptStr (optStrCell pt) = pt := by
  cases pt with
  | none => rfl
  | some s =>
      have hs : s ≠ "" := fun hc => h (by rw [hc])
      simp [optStrCell, strCell, cellOptStr, hs]

/-- One row survives the write/read cycle unchanged, provided its
`price_text` is not the empty string (an empty cell reads back as
missing). -/
theorem loadRow_persistRow (o : Observation) (h : o.price_text ≠ some "") :
    loadRow (persistRow o) = some o := by
  show some _ = some o
  rw [Option.some_inj]
  show ({ title := cellStr (strCell o.title), url := cellStr (strCell o.url),
          price := cellNum (optNumCell o.price),
          price_text := cellOptStr (optStrCell o.price_text),
          timestamp := cellStr (strCell o.timestamp),
          status := cellStr (strCell o.status) } : Observation) = o
  rw [cellStr_strCell, cellStr_strCell, cellStr_strCell, cellStr_strCell,
    cellNum_optNumCell, cellOptStr_optStrCell h]

/-! ### Theorems -/

/-- Claim C5: the Price Extractor takes only the first numeric run in the
text, stripping thousands commas before parsing: `extract("$1,234.56 extra")`
returns `1234.56`, and `extract("12.34.56")` returns `12.34` (the first
match wins even when a later occurrence is more price-like). -/
theorem extract_price_first_match_values :
    extract_price "$1,234.56 extra" = some (1234.56 : ℚ) ∧
    extract_price "12.34.56" = some (12.34 : ℚ) := by
  constructor
  · have h : extract_price "$1,234.56 extra" = some (mkRat 123456 100) := by decide
    rw [h]
    norm_num [Rat.mkRat_eq_div]
  · have h : extract_price "12.34.56" = some (mkRat 1234 100) := by decide
    rw [h]
    norm_num [Rat.mkRat_eq_div]

/-- Claim C6: for every input string with no digit character (including
the empty string and comma-only strings), the Price Extractor returns
null — and, being a total function, never raises.  (A comma-only string
does produce a regex match, but `float('')` after comma stripping fails
and is caught.) -/
theorem extract_price_no_digit_none (s : String) (h : ∀ c ∈ s.data, c.isDigit = false) :
    extract_price s = none := by
  unfold extract_price
  cases hm : firstNumericMatch s.data with
  | none => rfl
  | some m =>
      have hmem : ∀ c ∈ m, c.isDigit = false :=
        fun c hc => h c (firstNumericMatch_subset hm c hc)
      exact pyFloat_no_digit fun c hc =>
        hmem c ((List.mem_filter.mp hc).1)

/-- Claim C6, witness: the comma-and-symbol string `", ,$-."` contains
no digit and extracts to `none`. -/
theorem extract_price_no_digit_none_witness : extract_price ", ,$-." = none :=
  extract_price_no_digit_none ", ,$-." (by decide)

/-- Claim C10: on a page where a price locator matches an element whose
text parses to `0` and no later locator yields a different parseable
price, the Observation Builder returns status `price_not_found` with a
non-null price field `0` and the raw text of the last matched element:
`status = price_not_found` does not imply that `price` and `price_text`
are null. -/
theorem zero_price_not_found_observation :
    scrape_generic_product (.ok [(".price", "abc"), (".product-price", "0")])
        "https://shop.example/widget" none "2024-05-06 07:08:09" =
      { title := "widget", url := "https://shop.example/widget",
        price := some 0, price_text := some "0",
        timestamp := "2024-05-06 07:08:09", status := "price_not_found" } := by
  decide

/-- Claim C4: on every fetch failure the Observation Builder returns (and
does not raise) an Observation whose status begins with `error`, whose
price is null, and whose title is the URL itself. -/
theorem error_observation_fields (e url : String) (psel : Option String) (now : String) :
    (scrape_generic_product (.error e) url psel now).status = "error: " ++ e ∧
    ((scrape_generic_product (.error e) url psel now).status).data.take 5 = "error".data ∧
    (scrape_generic_product (.error e) url psel now).price = none ∧
    (scrape_generic_product (.error e) url psel now).title = url ∧
    (scrape_generic_product (.error e) url psel now).price_text = none := by
  refine ⟨rfl, ?_, rfl, rfl, rfl⟩
  show ("error: " ++ e).data.take 5 = "error".data
  rw [String.data_append]
  rfl

/-- Claim C2, amended: for every parsed page and ordered locator list,
the iteration stops at the first locator whose matched text parses to a
nonzero numeric value, and that value (with its raw text) is returned; a
parsed value of `0` is falsy in the `if price: break` test and does not
stop the scan. -/
theorem priceLoop_stops_at_first_nonzero (page : Page) (pre rest : List String)
    (sel t : String) (q : ℚ) (p0 : Option ℚ) (t0 : Option String)
    (hpre : ∀ s ∈ pre, fires page s = false)
    (hsel : selectOne page sel = some t)
    (hq : extract_price t = some q) (hq0 : q ≠ 0) :
    priceLoop page (pre ++ sel :: rest) p0 t0 = (some q, some t) := by
  have hnum : q.num ≠ 0 := Rat.num_ne_zero.mpr hq0
  induction pre generalizing p0 t0 with
  | nil => simp [priceLoop, hsel, hq, truthy, hnum]
  | cons s0 pre ih =>
    have hpre' : ∀ s ∈ pre, fires page s = false := fun s hs => hpre s (by simp [hs])
    have h0 : fires page s0 = false := hpre s0 (by simp)
    cases hs0 : selectOne page s0 with
    | none =>
        simpa [priceLoop, hs0] using ih p0 t0 hpre'
    | some u =>
        have hu : truthy (extract_price u) = false := by
          rw [← fires_eq_of_selectOne_some (t := u) hs0]; exact h0
        simpa [priceLoop, hs0, hu] using ih (extract_price u) (some u) hpre'

/-- Claim C2, witness for the amended statement: on a page where
`.price` yields unparsable text and `.a-price-whole` parses to `5`, the
scan returns `5` with raw text `"5"`. -/
theorem priceLoop_stops_at_first_nonzero_witness :
    priceLoop [(".price", "n/a"), (".a-price-whole", "5")]
        ([".price"] ++ ".a-price-whole" :: [ "[data-price]" ]) none none =
      (some 5, some "5") := by
  have h := priceLoop_stops_at_first_nonzero
    [(".price", "n/a"), (".a-price-whole", "5")]
    [".price"] ["[data-price]"] ".a-price-whole" "5" 5 none none
    (by decide) (by decide) (by decide) (by norm_num)
  exact h

/-- Claim C2, counterexample: on the page where `.price` matches text
`"0"` (which parses to the non-null value `0`) and `.a-price-whole`
matches `"5"`, the scan does not stop at the first locator: the returned
price is `5`, not the `0` the claim requires. -/
theorem zero_does_not_stop_scan_cex :
    selectOne [(".price", "0"), (".a-price-whole", "5")] ".price" = some "0" ∧
    extract_price "0" = some 0 ∧
    (priceLoop [(".price", "0"), (".a-price-whole", "5")] (selectorChain none) none none).1 =
      some 5 ∧
    (5 : ℚ) ≠ 0 := by
  decide

/-- Claim C3, counterexample: for the URL `"https://x.com/"` (whose last
path segment is empty) and a page matching no title locator, the
synthesized title is the empty string — refuting "this synthesized title
is never empty". -/
theorem title_never_empty_cex :
    (∀ s ∈ titleSelectors, selectOne ([] : Page) s = none) ∧
    (scrape_generic_product (.ok []) "https://x.com/" none "t").title = "" := by
  decide

/-- Claim C7, amended: the Selector Chain Resolver scans the locator
list strictly in order with the caller-supplied locator (when given and
non-empty — Python's `if price_selector:` treats an empty string as
absent) placed before every built-in locator; a locator matching an element
whose text fails to parse does not terminate the scan (the next locator
is tried, with the carried price/text state overwritten); and
`price_not_found` is returned exactly when no locator in the chain
matches an element whose text parses to a truthy (nonzero) price —
a locator parsing to `0` still yields `price_not_found`. -/
theorem selector_chain_order_and_not_found (page : Page) (url now s : String)
    (psel : Option String) :
    (s ≠ "" → selectorChain (some s) = s :: commonSelectors) ∧
    (∀ (sel : String) (rest : List String) (p0 : Option ℚ) (t0 : Option String) (u : String),
      selectOne page sel = some u → extract_price u = none →
      priceLoop page (sel :: rest) p0 t0 = priceLoop page rest none (some u)) ∧
    ((scrape_generic_product (.ok page) url psel now).status = "price_not_found" ↔
      ∀ sel ∈ selectorChain psel, fires page sel = false) := by
  refine ⟨?_, ?_, ?_⟩
  · intro hs
    simp [selectorChain, hs]
  · intro sel rest p0 t0 u hsel hu
    simp [priceLoop, hsel, hu, truthy]
  · have hb : truthy (priceLoop page (selectorChain psel) none none).1 =
        (selectorChain psel).any (fires page) := by
      rw [truthy_priceLoop]; simp [truthy]
    have hstat : (scrape_generic_product (.ok page) url psel now).status =
        if truthy (priceLoop page (selectorChain psel) none none).1 then "success"
        else "price_not_found" := rfl
    rw [hstat, hb]
    cases h : (selectorChain psel).any (fires page) with
    | true =>
        rw [if_pos rfl]
        constructor
        · intro hcontr; exact absurd hcontr (by decide)
        · intro hall
          rw [List.any_eq_true] at h
          obtain ⟨x, hx, hfx⟩ := h
          exact absurd hfx (by simp [hall x hx])
    | false =>
        rw [if_neg (by decide)]
        rw [List.any_eq_false] at h
        constructor
        · intro _ sel hsel
          simpa using h sel hsel
        · intro _; rfl

/-- Claim C7, witness: on a page where only the third built-in locator
matches (with parseable nonzero text), the amended theorem yields
`status = success` is refuted and conversely an all-miss page yields
`price_not_found`. -/
theorem selector_chain_order_and_not_found_witness :
    (scrape_generic_product (.ok [("other", "$7")]) "https://x.com/p" (some "#main-price")
        "t").status = "price_not_found" := by
  exact (selector_chain_order_and_not_found [("other", "$7")] "https://x.com/p" "t"
    "#main-price" (some "#main-price")).2.2.mpr (by decide)

/-- Claim C7, counterexample: on a page whose only matching locator
yields the parseable (non-null) price `0`, the result is nevertheless
`price_not_found` — refuting "not-found is returned only when no locator
yields a parseable price". -/
theorem parseable_zero_still_not_found_cex :
    selectOne [(".price", "0")] ".price" = some "0" ∧
    (extract_price "0").isSome = true ∧
    (scrape_generic_product (.ok [(".price", "0")]) "https://x.com/p" none "t").status =
      "price_not_found" := by
  decide

/-- Claim C3, amended: whenever no title locator matches the page (or
the first matched title is empty), the title is the last path segment of
the URL truncated to 50 characters; this synthesized title is non-empty
whenever the URL's last `/`-separated segment is non-empty (for a URL
ending in `/` it is empty), and url `"https://x.com/cool-gadget"` yields
title `"cool-gadget"`. -/
theorem title_fallback_last_segment (page : Page) (url now : String) (psel : Option String)
    (h : titleLoop page titleSelectors = none ∨ titleLoop page titleSelectors = some "") :
    (scrape_generic_product (.ok page) url psel now).title =
      String.mk (((splitOnSlash url.data).getLast?.getD []).take 50) ∧
    (((splitOnSlash url.data).getLast?.getD []) ≠ [] →
      (scrape_generic_product (.ok page) url psel now).title ≠ "") := by
  have htitle : (scrape_generic_product (.ok page) url psel now).title =
      fallbackTitle url := by
    show resolveTitle page url = fallbackTitle url
    rcases h with h | h <;> simp [resolveTitle, h]
  constructor
  · exact htitle
  · intro hseg
    rw [htitle]
    unfold fallbackTitle
    rw [Ne, String.ext_iff]
    show ¬ (_ = ("" : String).data)
    intro hcontr
    rw [show ("" : String).data = [] from rfl, List.take_eq_nil_iff] at hcontr
    rcases hcontr with h50 | hnil
    · exact absurd h50 (by norm_num)
    · exact hseg hnil

/-- Claim C3, witness for the amended statement: a page with no matching
title locator and url `"https://x.com/cool-gadget"` yields the non-empty
title `"cool-gadget"`. -/
theorem title_fallback_last_segment_witness :
    (scrape_generic_product (.ok []) "https://x.com/cool-gadget" none
        "2024-01-01 00:00:00").title = "cool-gadget" ∧
    (scrape_generic_product (.ok []) "https://x.com/cool-gadget" none
        "2024-01-01 00:00:00").title ≠ "" := by
  have h := title_fallback_last_segment [] "https://x.com/cool-gadget"
    "2024-01-01 00:00:00" none (Or.inl rfl)
  exact ⟨h.1.trans (by decide), h.2 (by decide)⟩

/-- Claim C8, amended: persist-then-load is the identity (hence
preserves the set of `(url, timestamp)` keys and every field value) for
datasets in which every observation has a non-null price and no
observation's `price_text` is the empty string; observations with a
null price are dropped by the loader's `price.notna()` filter. -/
theorem load_persist_round_trip (d : List Observation)
    (h : ∀ o ∈ d, o.price.isSome = true ∧ o.price_text ≠ some "") :
    load_data (persist d) = d := by
  induction d with
  | nil => rfl
  | cons o rest ih =>
      obtain ⟨h1, h2⟩ := h o (by simp)
      have hrow := loadRow_persistRow o h2
      show ((persistRow o :: rest.map persistRow).filterMap loadRow).filter
          (fun x => x.price.isSome) = o :: rest
      rw [List.filterMap_cons_some hrow,
        @List.filter_cons_of_pos _ (fun x => x.price.isSome) o
          (List.filterMap loadRow (List.map persistRow rest)) h1]
      have := ih (fun x hx => h x (by simp [hx]))
      exact congrArg (o :: ·) this

/-- Claim C8, witness for the amended statement: a two-row dataset of
successful observations round-trips unchanged. -/
theorem load_persist_round_trip_witness :
    load_data (persist
      [{ title := "A", url := "u1", price := some 1, price_text := some "$1",
         timestamp := "t1", status := "success" },
       { title := "B", url := "u2", price := some 2, price_text := some "$2",
         timestamp := "t2", status := "success" }]) =
      [({ title := "A", url := "u1", price := some 1, price_text := some "$1",
          timestamp := "t1", status := "success" } : Observation),
       { title := "B", url := "u2", price := some 2, price_text := some "$2",
         timestamp := "t2", status := "success" }] :=
  load_persist_round_trip _ (by decide)

/-- Claim C8, counterexample: a dataset holding one error observation
(null price) does not round-trip: `load` filters out rows with no price,
so the loaded dataset has no `(url, timestamp)` key at all while the
persisted one had one. -/
theorem round_trip_drops_null_price_cex :
    (load_data (persist
        [{ title := "https://x.com/a", url := "https://x.com/a", price := none,
           price_text := none, timestamp := "2024-01-01 00:00:00",
           status := "error: timeout" }])).map obsKey = [] ∧
    ([{ title := "https://x.com/a", url := "https://x.com/a", price := none,
        price_text := none, timestamp := "2024-01-01 00:00:00",
        status := "error: timeout" }].map obsKey : List (String × String)) =
      [("https://x.com/a", "2024-01-01 00:00:00")] := by
  decide

/-- Claim C1: the Store's append (`save_to_csv`) maintains the dataset
invariant: the merged result has pairwise-distinct `(url, timestamp)`
keys; for every key the row found is the last-occurring row of
`existing ++ new` with that key (new wins over old, later new rows win
over earlier ones); and appending a single observation whose key already
occurs in a key-distinct existing dataset replaces the old row (the key
now resolves to the new observation) without growing the dataset. -/
theorem save_dedup_invariant (existing newData : List Observation) (o : Observation)
    (k : String × String) :
    (save_to_csv (some existing) newData).Pairwise (fun a b => obsKey a ≠ obsKey b) ∧
    (save_to_csv (some existing) newData).find? (fun x => obsKey x == k) =
      ((existing ++ newData).reverse).find? (fun x => obsKey x == k) ∧
    (save_to_csv (some existing) [o]).find? (fun x => obsKey x == obsKey o) = some o ∧
    (existing.Pairwise (fun a b => obsKey a ≠ obsKey b) →
      obsKey o ∈ existing.map obsKey →
      (save_to_csv (some existing) [o]).length = existing.length) := by
  refine ⟨dedupKeepLast_pairwise _, dedupKeepLast_find?_reverse _ _, ?_, ?_⟩
  · rw [show save_to_csv (some existing) [o] = dedupKeepLast (existing ++ [o]) from rfl,
      dedupKeepLast_find?_reverse, List.reverse_append,
      show ([o] : List Observation).reverse = [o] from rfl, List.find?_append,
      @List.find?_cons_of_pos _ (fun x => obsKey x == obsKey o) o [] (beq_self_eq_true _),
      Option.or_some]
  · intro hp hmem
    rw [show save_to_csv (some existing) [o] = dedupKeepLast (existing ++ [o]) from rfl,
      dedupKeepLast_length_append_single existing o hp, if_pos hmem]

/-- Claim C1, witness: appending an observation with the key
`("u1", "t1")` over an existing single-row dataset with the same key
keeps the size at 1 and resolves the key to the new row. -/
theorem save_dedup_invariant_witness :
    (save_to_csv (some [{ title := "A", url := "u1", price := none, price_text := none,
                          timestamp := "t1", status := "price_not_found" }])
      [{ title := "A", url := "u1", price := some 2, price_text := some "2",
         timestamp := "t1", status := "success" }]).length = 1 ∧
    (save_to_csv (some [{ title := "A", url := "u1", price := none, price_text := none,
                          timestamp := "t1", status := "price_not_found" }])
      [{ title := "A", url := "u1", price := some 2, price_text := some "2",
         timestamp := "t1", status := "success" }]).find?
        (fun x => obsKey x == ("u1", "t1")) =
      some { title := "A", url := "u1", price := some 2, price_text := some "2",
             timestamp := "t1", status := "success" } := by
  have h := save_dedup_invariant
    [{ title := "A", url := "u1", price := none, price_text := none,
       timestamp := "t1", status := "price_not_found" }]
    [{ title := "A", url := "u1", price := some 2, price_text := some "2",
       timestamp := "t1", status := "success" }]
    { title := "A", url := "u1", price := some 2, price_text := some "2",
      timestamp := "t1", status := "success" }
    ("u1", "t1")
  exact ⟨h.2.2.2 (by simp) (by simp [obsKey]), h.2.2.1⟩

/-- Claim C9: when the dataset file does not exist, the Store's append
treats it as the empty dataset (no exception is modelled because the
missing-file branch takes `df_combined = df_new`): the result equals the
merge with an empty existing dataset, and whenever the new observations
have pairwise-distinct keys it is exactly the new observations. -/
theorem save_missing_file_as_empty (newData : List Observation) :
    save_to_csv none newData = save_to_csv (some []) newData ∧
    (newData.Pairwise (fun a b => obsKey a ≠ obsKey b) →
      save_to_csv none newData = newData) := by
  refine ⟨rfl, ?_⟩
  intro h
  exact dedupKeepLast_eq_self h

/-- Claim C9, witness: appending two distinct-key observations over a
missing file yields exactly those observations. -/
theorem save_missing_file_as_empty_witness :
    save_to_csv none
      [{ title := "A", url := "u1", price := some 1, price_text := some "1",
         timestamp := "t1", status := "success" },
       { title := "B", url := "u2", price := some 2, price_text := some "2",
         timestamp := "t2", status := "success" }] =
      [({ title := "A", url := "u1", price := some 1, price_text := some "1",
          timestamp := "t1", status := "success" } : Observation),
       { title := "B", url := "u2", price := some 2, price_text := some "2",
         timestamp := "t2", status := "success" }] :=
  (save_missing_file_as_empty _).2 (by decide)

end PriceMonitor
